import Mathlib

/-!
Verification development for `kinoml/core/measurements.py`.

The module is a value-object hierarchy of experimental measurements
(`BaseMeasurement` and the subclasses `PercentageDisplacementMeasurement`,
`pIC50Measurement`, `pKiMeasurement`, `pKdMeasurement`) together with
per-backend observation-model formulas and strict range validation.

Shallow embedding conventions:
- Stored numeric data (values, errors) is modelled over `ℚ`; the construction,
  validation and equality paths only compare and bound values, so rationals
  model them exactly.  The `np.nan` default for `errors` is outside the
  rational model; theorems pass errors explicitly.
- The closed-form observation formulas use `Real.exp`/`Real.log` over `ℝ`,
  the idealised semantics of the floating-point code.
- Fallible paths (`np.reshape`, `assert`) return `Except String`.
- The `getattr`-based backend dispatch is modelled by an explicit attribute
  table over the class inductive, with the base-class fallback of Python's
  method resolution order made explicit.
-/

namespace KinoML

/-- The measurement classes of the module, as an inductive tag
(`BaseMeasurement` plus its four subclasses). -/
inductive MClass where
  | base
  | percentageDisplacement
  | pIC50
  | pKi
  | pKd
deriving DecidableEq, Repr

/-- `cls.__name__` for each class. -/
def MClass.name : MClass → String
  | .base => "BaseMeasurement"
  | .percentageDisplacement => "PercentageDisplacementMeasurement"
  | .pIC50 => "pIC50Measurement"
  | .pKi => "pKiMeasurement"
  | .pKd => "pKdMeasurement"

/-- A `values`/`errors` argument: `Union[float, Iterable[float]]`. -/
inductive NumInput where
  | scalar (v : ℚ)
  | iterable (vs : List ℚ)
deriving DecidableEq, Repr

/-- The flat data an input denotes (numpy treats a scalar as a size-1 array). -/
def NumInput.asList : NumInput → List ℚ
  | .scalar v => [v]
  | .iterable vs => vs

/-- `np.reshape(x, (1,))`: succeeds with the same data exactly when the input
has total size 1, otherwise raises `ValueError`. -/
def npReshapeShape1 (xs : List ℚ) : Except String (List ℚ) :=
  if xs.length = 1 then
    .ok xs
  else
    .error ("cannot reshape array of size " ++ toString xs.length ++
      " into shape (1,)")

/-- The state stored by `BaseMeasurement.__init__`.  `conditions` and `system`
are opaque equality-comparable collaborators, modelled as identifiers. -/
structure Measurement where
  values : List ℚ
  errors : List ℚ
  conditions : Nat
  system : Nat
  groups : List String
  metadata : List (String × String)
deriving DecidableEq, Repr

/-- `BaseMeasurement.check` and the overriding `check` methods of the
subclasses.  Each subclass calls `super().check()` (a no-op) and then asserts
its range with its literal message; the chained numpy comparison
`(0 <= self.values <= B).all()` on the size-1 stored vector is elementwise
`0 ≤ v ∧ v ≤ B`. -/
def MClass.check : MClass → List ℚ → Except String Unit
  | .base, _ => .ok ()
  | .percentageDisplacement, vs =>
      if vs.all (fun v => 0 ≤ v && v ≤ 100) then .ok ()
      else .error "One or more values are not in [0, 100]"
  | .pIC50, vs =>
      if vs.all (fun v => 0 ≤ v && v ≤ 15) then .ok ()
      else .error
        "Values for pIC50Measurement are expected to be in the [0, 15] range."
  | .pKi, vs =>
      if vs.all (fun v => 0 ≤ v && v ≤ 15) then .ok ()
      else .error
        "Values for pKiMeasurement are expected to be in the [0, 15] range."
  | .pKd, vs =>
      if vs.all (fun v => 0 ≤ v && v ≤ 15) then .ok ()
      else .error
        "Values for pKdMeasurement are expected to be in the [0, 15] range."

/-- `BaseMeasurement.__init__` (shared by all subclasses): reshape `values`
and `errors` to shape `(1,)`, store the collaborators, default `groups` to
`set()` and `metadata` to `{}`, and run `check()` when `strict`. -/
def constructMeasurement (cls : MClass) (values : NumInput)
    (conditions system : Nat) (errors : NumInput)
    (groups : Option (List String)) (metadata : Option (List (String × String)))
    (strict : Bool) : Except String Measurement :=
  match npReshapeShape1 values.asList with
  | .error msg => .error msg
  | .ok vs =>
    match npReshapeShape1 errors.asList with
    | .error msg => .error msg
    | .ok es =>
      let m : Measurement :=
        { values := vs, errors := es, conditions := conditions,
          system := system, groups := groups.getD [],
          metadata := metadata.getD [] }
      if strict then
        match cls.check vs with
        | .error msg => .error msg
        | .ok _ => .ok m
      else
        .ok m

/-- `(a == b).all()` for two stored numpy vectors: elementwise equality, all
rows true. -/
def valuesAllEqual (a b : List ℚ) : Bool :=
  (List.zipWith (fun x y => x == y) a b).all id

/-- `BaseMeasurement.__eq__`: elementwise-equal values, equal conditions and
equal system; errors, groups and metadata are not consulted. -/
def measurementEq (a b : Measurement) : Bool :=
  valuesAllEqual a.values b.values
    && (a.conditions == b.conditions)
    && (a.system == b.system)

/-- Substring occurrence on character lists: `needle` is a prefix of `hay`. -/
def charsStartWith : List Char → List Char → Bool
  | [], _ => true
  | _ :: _, [] => false
  | a :: as, b :: bs => a == b && charsStartWith as bs

/-- Substring occurrence on character lists: `needle` occurs somewhere. -/
def charsOccurIn (needle : List Char) : List Char → Bool
  | [] => charsStartWith needle []
  | b :: bs => charsStartWith needle (b :: bs) || charsOccurIn needle bs

/-- `sub in s` for strings. -/
def strContains (s sub : String) : Bool :=
  charsOccurIn sub.toList s.toList

/-- The observation-model static methods that exist in the module, one tag per
`def` in the source. -/
inductive ObsFormula where
  | basePytorch
  | baseXgboost
  | percentageDisplacementPytorch
  | percentageDisplacementXgboost
  | pIC50Pytorch
  | pIC50Xgboost
  | pKiPytorch
  | pKiXgboost
  | pKdPytorch
  | pKdXgboost
deriving DecidableEq, Repr

/-- Whether calling the formula raises `NotImplementedError` (the base-class
placeholders and the `# TODO` xgboost bodies do; the others compute). -/
def ObsFormula.invokeRaisesNotImplemented : ObsFormula → Bool
  | .basePytorch => true
  | .baseXgboost => true
  | .percentageDisplacementPytorch => false
  | .percentageDisplacementXgboost => true
  | .pIC50Pytorch => false
  | .pIC50Xgboost => false
  | .pKiPytorch => false
  | .pKiXgboost => true
  | .pKdPytorch => false
  | .pKdXgboost => true

/-- The attribute `_observation_model_<backend>` defined directly on a class
(its own `__dict__`).  Every class in the module defines both the `pytorch`
and the `xgboost` method and nothing for any other backend string. -/
def ownObservationModelAttr (cls : MClass) (backend : String) :
    Option ObsFormula :=
  if backend = "pytorch" then
    some (match cls with
      | .base => .basePytorch
      | .percentageDisplacement => .percentageDisplacementPytorch
      | .pIC50 => .pIC50Pytorch
      | .pKi => .pKiPytorch
      | .pKd => .pKdPytorch)
  else if backend = "xgboost" then
    some (match cls with
      | .base => .baseXgboost
      | .percentageDisplacement => .percentageDisplacementXgboost
      | .pIC50 => .pIC50Xgboost
      | .pKi => .pKiXgboost
      | .pKd => .pKdXgboost)
  else
    none

/-- `getattr(cls, f"_observation_model_{backend}")`: look in the class itself,
then fall back to `BaseMeasurement` for subclasses (Python attribute lookup
along the method resolution order). -/
def getattrObservationModel (cls : MClass) (backend : String) :
    Option ObsFormula :=
  match ownObservationModelAttr cls backend with
  | some f => some f
  | none =>
      if cls = .base then none
      else ownObservationModelAttr .base backend

/-- `BaseMeasurement._observation_model`: the `getattr` lookup, with the
`AttributeError` branch converted into the "not available" error. -/
def observationModelLookup (cls : MClass) (backend : String) :
    Except String ObsFormula :=
  match getattrObservationModel cls backend with
  | some method => .ok method
  | none =>
      .error ("Observation model for backend `" ++ backend ++
        "` is not available for `" ++ cls.name ++ "` types")

/-- `BaseMeasurement.observation_model`: delegates to `_observation_model`
and returns the method itself, uninvoked. -/
def observation_model (cls : MClass) (backend : String) :
    Except String ObsFormula :=
  observationModelLookup cls backend

/-- `null_observation_model`: returns its argument unchanged. -/
def null_observation_model {α : Type} (arg : α) : α :=
  arg

set_option linter.unusedVariables false in
/-- `PercentageDisplacementMeasurement._observation_model_pytorch`.
`inhibitor_conc` is accepted (default 1 in the source) but unused by the
body. -/
noncomputable def percentageDisplacement_observation_model_pytorch
    (dG_over_KT inhibitor_conc : ℝ) : ℝ :=
  100 * (1 - 1 / (1 + 1 / Real.exp dG_over_KT))

/-- `pIC50Measurement._observation_model_pytorch`. -/
noncomputable def pIC50_observation_model_pytorch
    (dG_over_KT substrate_conc michaelis_constant inhibitor_conc : ℝ) : ℝ :=
  -(dG_over_KT +
      Real.log ((1 + substrate_conc / michaelis_constant) * inhibitor_conc))
    * 1 / Real.log 10

/-- One row of the gradient computed by
`pIC50Measurement._observation_model_xgboost` (the source's local bindings
`LN10 = np.log(10)` and
`constant = np.log((1 + substrate_conc / michaelis_constant) * inhibitor_conc)
/ LN10` are inlined). -/
noncomputable def pIC50_observation_model_xgboost_grad
    (dG_over_KT label substrate_conc michaelis_constant inhibitor_conc : ℝ) :
    ℝ :=
  (label + dG_over_KT / Real.log 10 +
      Real.log ((1 + substrate_conc / michaelis_constant) * inhibitor_conc) /
        Real.log 10)
    * 1 / Real.log 10

/-- One row of the Hessian computed by
`pIC50Measurement._observation_model_xgboost`:
`np.full(grad.shape, 1 / LN10 ** 2)` fills every row with the constant. -/
noncomputable def pIC50_observation_model_xgboost_hess : ℝ :=
  1 / Real.log 10 ^ 2

/-- `pIC50Measurement._observation_model_xgboost`: reads the per-row labels
from the `dmatrix` and returns the elementwise gradient together with a
Hessian of the same shape. -/
noncomputable def pIC50_observation_model_xgboost (dG_over_KT : ℝ)
    (labels : List ℝ)
    (substrate_conc michaelis_constant inhibitor_conc : ℝ) :
    List ℝ × List ℝ :=
  (labels.map (fun label =>
      pIC50_observation_model_xgboost_grad dG_over_KT label substrate_conc
        michaelis_constant inhibitor_conc),
   labels.map (fun _ => pIC50_observation_model_xgboost_hess))

/-- `pKiMeasurement._observation_model_pytorch`. -/
noncomputable def pKi_observation_model_pytorch
    (dG_over_KT inhibitor_conc : ℝ) : ℝ :=
  -(dG_over_KT + Real.log inhibitor_conc) * 1 / Real.log 10

/-- `pKdMeasurement._observation_model_pytorch`. -/
noncomputable def pKd_observation_model_pytorch
    (dG_over_KT inhibitor_conc : ℝ) : ℝ :=
  -(dG_over_KT + Real.log inhibitor_conc) * 1 / Real.log 10

/-- C2 counterexample: at `x = 0`, `S = 1e-6`, `Km = 1`, `C = 1` the pIC50
array-backend formula returns `-log(1.000001) / log 10`, a strictly negative
number, not exactly 0 as the claim states. -/
theorem c2_pIC50_at_defaults_not_zero :
    pIC50_observation_model_pytorch 0 (1e-6) 1 1 ≠ 0 := by
  have h10 : (0 : ℝ) < Real.log 10 := Real.log_pos (by norm_num)
  have hlog : 0 < Real.log ((1 + (1e-6 : ℝ) / 1) * 1) :=
    Real.log_pos (by norm_num)
  have hneg : pIC50_observation_model_pytorch 0 (1e-6) 1 1 < 0 := by
    unfold pIC50_observation_model_pytorch
    have hnum : -((0 : ℝ) + Real.log ((1 + (1e-6 : ℝ) / 1) * 1)) * 1 < 0 := by
      linarith
    exact div_neg_of_neg_of_pos hnum h10
  exact ne_of_lt hneg

/-- C2 (amended): the pKd array-backend formula at `x = 0`, `C = 1` returns
exactly 0; the pIC50 array-backend formula at `x = 0`, `S = 1e-6`, `Km = 1`,
`C = 1` returns `-log(1 + 1e-6) / log 10`, which is strictly negative and not
0; it returns exactly 0 when `S = 0` instead. -/
theorem c2_formula_literal_values :
    pKd_observation_model_pytorch 0 1 = 0 ∧
    pIC50_observation_model_pytorch 0 (1e-6) 1 1
      = -Real.log (1 + 1e-6) / Real.log 10 ∧
    pIC50_observation_model_pytorch 0 (1e-6) 1 1 < 0 ∧
    pIC50_observation_model_pytorch 0 0 1 1 = 0 := by
  have h10 : (0 : ℝ) < Real.log 10 := Real.log_pos (by norm_num)
  refine ⟨?_, ?_, ?_, ?_⟩
  · unfold pKd_observation_model_pytorch
    simp [Real.log_one]
  · unfold pIC50_observation_model_pytorch
    rw [show ((1 : ℝ) + (1e-6 : ℝ) / 1) * 1 = 1 + 1e-6 by norm_num]
    ring
  · have hlog : 0 < Real.log ((1 + (1e-6 : ℝ) / 1) * 1) :=
      Real.log_pos (by norm_num)
    unfold pIC50_observation_model_pytorch
    have hnum : -((0 : ℝ) + Real.log ((1 + (1e-6 : ℝ) / 1) * 1)) * 1 < 0 := by
      linarith
    exact div_neg_of_neg_of_pos hnum h10
  · unfold pIC50_observation_model_pytorch
    rw [show ((1 : ℝ) + (0 : ℝ) / 1) * 1 = 1 by norm_num]
    simp [Real.log_one]

/-- C6: for every latent input `x` (and any inhibitor concentration, which
the body ignores) the PercentageDisplacement array-backend formula returns
`100 * (1 - 1 / (1 + 1 / exp x))`, and at `x = 0` it returns 50. -/
theorem c6_percentage_displacement_formula (x c c' : ℝ) :
    percentageDisplacement_observation_model_pytorch x c
      = 100 * (1 - 1 / (1 + 1 / Real.exp x)) ∧
    percentageDisplacement_observation_model_pytorch 0 c' = 50 := by
  refine ⟨rfl, ?_⟩
  unfold percentageDisplacement_observation_model_pytorch
  rw [Real.exp_zero]
  norm_num

/-- C8: the pKi and pKd array-backend formulas agree at every latent input
`x` and inhibitor concentration `C`, and both equal
`-(x + log C) / log 10`. -/
theorem c8_pKi_pKd_formulas_agree (x C : ℝ) :
    pKi_observation_model_pytorch x C = pKd_observation_model_pytorch x C ∧
    pKi_observation_model_pytorch x C = -(x + Real.log C) / Real.log 10 := by
  refine ⟨rfl, ?_⟩
  unfold pKi_observation_model_pytorch
  ring

/-- C7: the pIC50 gradient-boosting formula returns the pair
`(gradient, Hessian)` with per-row gradient
`(label + x/ln10 + constant)/ln10` (`constant = ln((1 + S/Km) C)/ln10`) and
per-row Hessian `1/ln10²`; the gradient is the derivative in `x` of the
one-half-squared-error loss between the array-backend prediction and the
label, and the Hessian is the derivative of that gradient. -/
theorem c7_pIC50_xgboost_gradient_hessian
    (x label S Km C : ℝ) (labels : List ℝ) :
    pIC50_observation_model_xgboost x labels S Km C
      = (labels.map (fun l =>
          (l + x / Real.log 10 +
              Real.log ((1 + S / Km) * C) / Real.log 10) * 1 / Real.log 10),
         labels.map (fun _ => 1 / Real.log 10 ^ 2)) ∧
    HasDerivAt
      (fun t => 1 / 2 *
        (pIC50_observation_model_pytorch t S Km C - label) ^ 2)
      (pIC50_observation_model_xgboost_grad x label S Km C) x ∧
    HasDerivAt
      (fun t => pIC50_observation_model_xgboost_grad t label S Km C)
      pIC50_observation_model_xgboost_hess x := by
  refine ⟨rfl, ?_, ?_⟩
  · unfold pIC50_observation_model_pytorch pIC50_observation_model_xgboost_grad
    have hpred : HasDerivAt
        (fun t : ℝ =>
          -(t + Real.log ((1 + S / Km) * C)) * 1 / Real.log 10)
        (-1 * 1 / Real.log 10) x :=
      ((((hasDerivAt_id x).add_const
          (Real.log ((1 + S / Km) * C))).neg).mul_const 1).div_const
        (Real.log 10)
    have hloss := ((hpred.sub_const label).pow 2).const_mul (1 / 2 : ℝ)
    convert hloss using 1
    push_cast
    ring
  · unfold pIC50_observation_model_xgboost_grad
      pIC50_observation_model_xgboost_hess
    have hrow : HasDerivAt
        (fun t : ℝ =>
          (label + t / Real.log 10 +
              Real.log ((1 + S / Km) * C) / Real.log 10) * 1 / Real.log 10)
        (1 / Real.log 10 * 1 / Real.log 10) x :=
      ((((hasDerivAt_id x).div_const (Real.log 10)).const_add label).add_const
          (Real.log ((1 + S / Km) * C) / Real.log 10)).mul_const 1
        |>.div_const (Real.log 10)
    convert hrow using 1
    ring

/-- C1 (evaluating the code at the failing input): reshaping to shape `(1,)`
makes construction with a two-element iterable raise `ValueError`, while a
scalar or a one-element iterable is stored as the corresponding one-element
vector (returned unchanged by `.values`/`.errors`). -/
theorem c1_reshape_rejects_multielement_values :
    constructMeasurement .base (.iterable [1, 2]) 0 0 (.scalar 0) none none
        true
      = .error "cannot reshape array of size 2 into shape (1,)" ∧
    constructMeasurement .base (.scalar 5) 0 0 (.scalar 0) none none true
      = .ok { values := [5], errors := [0], conditions := 0, system := 0,
              groups := [], metadata := [] } ∧
    constructMeasurement .base (.iterable [7]) 0 0 (.scalar 0) none none true
      = .ok { values := [7], errors := [0], conditions := 0, system := 0,
              groups := [], metadata := [] } := by
  refine ⟨rfl, rfl, rfl⟩

/-- Helper: `isOk` of the `if`-guarded assert shape used by every `check`. -/
theorem exceptIf_isOk (b : Bool) (m : String) :
    (if b then Except.ok () else Except.error m : Except String Unit).isOk
      = b := by
  cases b <;> rfl

/-- Helper: with scalar inputs and `strict := True`, construction succeeds
exactly when the subclass `check` passes on the stored vector. -/
theorem construct_scalar_strict_isOk (cls : MClass) (v e : ℚ) (c s : Nat) :
    (constructMeasurement cls (.scalar v) c s (.scalar e) none none
        true).isOk
      = (cls.check [v]).isOk := by
  unfold constructMeasurement
  cases h : cls.check [v] <;>
    simp [npReshapeShape1, NumInput.asList, h, Except.isOk, Except.toBool]

/-- Helper: with scalar inputs and `strict := False`, construction always
succeeds. -/
theorem construct_scalar_nonstrict_isOk (cls : MClass) (v e : ℚ)
    (c s : Nat) :
    (constructMeasurement cls (.scalar v) c s (.scalar e) none none
        false).isOk = true := by
  unfold constructMeasurement
  simp [npReshapeShape1, NumInput.asList, Except.isOk, Except.toBool]

/-- Helper: `isOk` of a propositionally guarded assert. -/
theorem exceptIfProp_isOk (P : Prop) [Decidable P] (m : String) :
    ((if P then Except.ok () else Except.error m :
        Except String Unit).isOk = true) ↔ P := by
  split <;> simp_all [Except.isOk, Except.toBool]

/-- C3: with `strict=True` and a (scalar) value, construction fails exactly
when the value is outside the subtype's range — `[0, 100]` for
PercentageDisplacement and `[0, 15]` for pIC50/pKi/pKd, both bounds
inclusive — and with `strict=False` construction always succeeds.  (Only
size-1 inputs reach `check`: multi-element inputs fail earlier at reshape,
see the C1 theorem.) -/
theorem c3_strict_range_validation (v e : ℚ) (c s : Nat) :
    ((constructMeasurement .percentageDisplacement (.scalar v) c s
        (.scalar e) none none true).isOk = true ↔ 0 ≤ v ∧ v ≤ 100) ∧
    ((constructMeasurement .pIC50 (.scalar v) c s (.scalar e) none none
        true).isOk = true ↔ 0 ≤ v ∧ v ≤ 15) ∧
    ((constructMeasurement .pKi (.scalar v) c s (.scalar e) none none
        true).isOk = true ↔ 0 ≤ v ∧ v ≤ 15) ∧
    ((constructMeasurement .pKd (.scalar v) c s (.scalar e) none none
        true).isOk = true ↔ 0 ≤ v ∧ v ≤ 15) ∧
    (∀ cls : MClass,
      (constructMeasurement cls (.scalar v) c s (.scalar e) none none
        false).isOk = true) := by
  refine ⟨?_, ?_, ?_, ?_, fun cls => construct_scalar_nonstrict_isOk ..⟩ <;>
    rw [construct_scalar_strict_isOk] <;>
    simp [MClass.check, exceptIfProp_isOk]

/-- C4: for every class and backend string, the lookup
`getattr(cls, f"_observation_model_{backend}")` fails exactly for backend
names other than `pytorch` and `xgboost`; on failure `observation_model`
raises the "not available for this (class, backend) pair" error, and on
success it returns the found method itself, uninvoked. -/
theorem c4_observation_model_dispatch (cls : MClass) (backend : String) :
    (getattrObservationModel cls backend = none ↔
      backend ≠ "pytorch" ∧ backend ≠ "xgboost") ∧
    (getattrObservationModel cls backend = none →
      observation_model cls backend = .error
        ("Observation model for backend `" ++ backend ++
          "` is not available for `" ++ cls.name ++ "` types")) ∧
    (∀ f, getattrObservationModel cls backend = some f →
      observation_model cls backend = .ok f) := by
  refine ⟨?_, ?_, ?_⟩
  · unfold getattrObservationModel ownObservationModelAttr
    by_cases hp : backend = "pytorch"
    · subst hp; cases cls <;> simp
    · by_cases hx : backend = "xgboost"
      · subst hx; cases cls <;> simp
      · cases cls <;> simp [hp, hx]
  · intro h
    unfold observation_model observationModelLookup
    rw [h]
  · intro f h
    unfold observation_model observationModelLookup
    rw [h]

/-- C4 witness: for `pIC50Measurement` the lookup with backend `tensorflow`
raises the "not available" error, while with backend `pytorch` it returns
the pIC50 pytorch formula itself. -/
theorem c4_observation_model_dispatch_witness :
    observation_model .pIC50 "tensorflow" = .error
      ("Observation model for backend `" ++ "tensorflow" ++
        "` is not available for `" ++ MClass.pIC50.name ++ "` types") ∧
    observation_model .pIC50 "pytorch" = .ok .pIC50Pytorch :=
  ⟨(c4_observation_model_dispatch .pIC50 "tensorflow").2.1 (by decide),
   (c4_observation_model_dispatch .pIC50 "pytorch").2.2 .pIC50Pytorch
     (by decide)⟩

/-- C5 counterexample: strict construction of a
`PercentageDisplacementMeasurement` at the out-of-range value 200 fails with
the message `"One or more values are not in [0, 100]"`, which does not name
the offending class. -/
theorem c5_percentage_message_lacks_class_name :
    constructMeasurement .percentageDisplacement (.scalar 200) 0 0
        (.scalar 0) none none true
      = .error "One or more values are not in [0, 100]" ∧
    strContains "One or more values are not in [0, 100]"
      "PercentageDisplacementMeasurement" = false := by
  exact ⟨rfl, by decide⟩

/-- Helper: with scalar inputs and `strict := True`, a failing `check`
propagates its message as the construction error. -/
theorem construct_scalar_strict_error (cls : MClass) (v e : ℚ) (c s : Nat)
    (msg : String) (h : cls.check [v] = .error msg) :
    constructMeasurement cls (.scalar v) c s (.scalar e) none none true
      = .error msg := by
  unfold constructMeasurement
  simp [npReshapeShape1, NumInput.asList, h]

/-- C5 (amended): when strict validation fails, the p-scale subtypes
(pIC50, pKi, pKd) raise with a message naming the offending class and the
`[0, 15]` bound; `PercentageDisplacementMeasurement` raises with a message
that states the expected `[0, 100]` range but does not name the class. -/
theorem c5_validation_messages (v e : ℚ) (c s : Nat)
    (h15 : ¬(0 ≤ v ∧ v ≤ 15)) (h100 : ¬(0 ≤ v ∧ v ≤ 100)) :
    (∀ cls : MClass, cls = .pIC50 ∨ cls = .pKi ∨ cls = .pKd →
      ∃ msg, constructMeasurement cls (.scalar v) c s (.scalar e) none none
          true = .error msg ∧
        strContains msg cls.name = true ∧
        strContains msg "[0, 15]" = true) ∧
    (∃ msg, constructMeasurement .percentageDisplacement (.scalar v) c s
        (.scalar e) none none true = .error msg ∧
      strContains msg "[0, 100]" = true ∧
      strContains msg "PercentageDisplacementMeasurement" = false) := by
  have hb15 : ([v].all fun w => decide (0 ≤ w) && decide (w ≤ 15)) = false := by
    rw [Bool.eq_false_iff]
    intro hc
    exact h15 (by simpa using hc)
  have hb100 : ([v].all fun w => decide (0 ≤ w) && decide (w ≤ 100))
      = false := by
    rw [Bool.eq_false_iff]
    intro hc
    exact h100 (by simpa using hc)
  constructor
  · rintro cls (rfl | rfl | rfl)
    · exact ⟨"Values for pIC50Measurement are expected to be in the [0, 15] range.",
        construct_scalar_strict_error _ v e c s _
          (by simp [MClass.check, hb15]), by decide, by decide⟩
    · exact ⟨"Values for pKiMeasurement are expected to be in the [0, 15] range.",
        construct_scalar_strict_error _ v e c s _
          (by simp [MClass.check, hb15]), by decide, by decide⟩
    · exact ⟨"Values for pKdMeasurement are expected to be in the [0, 15] range.",
        construct_scalar_strict_error _ v e c s _
          (by simp [MClass.check, hb15]), by decide, by decide⟩
  · exact ⟨"One or more values are not in [0, 100]",
      construct_scalar_strict_error _ v e c s _
        (by simp [MClass.check, hb100]), by decide, by decide⟩

/-- C5 witness: the amended statement applied at the concrete out-of-range
value 200, for `pIC50Measurement`. -/
theorem c5_validation_messages_witness :
    ∃ msg, constructMeasurement .pIC50 (.scalar 200) 0 0 (.scalar 0) none
        none true = .error msg ∧
      strContains msg MClass.pIC50.name = true ∧
      strContains msg "[0, 15]" = true :=
  (c5_validation_messages 200 0 0 0 (by decide) (by decide)).1 .pIC50
    (Or.inl rfl)

/-- Helper: the elementwise numpy comparison of a stored vector with itself
is everywhere true. -/
theorem valuesAllEqual_self (v : List ℚ) : valuesAllEqual v v = true := by
  simp [valuesAllEqual]

/-- C9: equality consults only values, conditions and system — two
measurements with the same stored values, conditions and system compare
equal whatever their errors, groups and metadata are. -/
theorem c9_equality_ignores_errors_groups_metadata
    (v e e' : List ℚ) (c s : Nat) (g g' : List String)
    (m m' : List (String × String)) :
    measurementEq
      { values := v, errors := e, conditions := c, system := s,
        groups := g, metadata := m }
      { values := v, errors := e', conditions := c, system := s,
        groups := g', metadata := m' } = true := by
  simp [measurementEq, valuesAllEqual_self]

/-- C10: for every class, looking up the `pytorch` and `xgboost` observation
models never raises (the base class defines placeholder static methods for
both names); for the placeholder (class, backend) pairs the
`NotImplementedError` is raised only when the returned callable is invoked. -/
theorem c10_backend_lookup_total (cls : MClass) :
    (observation_model cls "pytorch").isOk = true ∧
    (observation_model cls "xgboost").isOk = true ∧
    (cls ≠ .pIC50 →
      ∃ f, observation_model cls "xgboost" = .ok f ∧
        f.invokeRaisesNotImplemented = true) ∧
    (cls = .base →
      ∃ f, observation_model cls "pytorch" = .ok f ∧
        f.invokeRaisesNotImplemented = true) := by
  cases cls
  case base =>
    exact ⟨rfl, rfl,
      fun _ => ⟨.baseXgboost, rfl, rfl⟩,
      fun _ => ⟨.basePytorch, rfl, rfl⟩⟩
  case percentageDisplacement =>
    exact ⟨rfl, rfl,
      fun _ => ⟨.percentageDisplacementXgboost, rfl, rfl⟩,
      fun h => nomatch h⟩
  case pIC50 =>
    exact ⟨rfl, rfl,
      fun h => absurd rfl h,
      fun h => nomatch h⟩
  case pKi =>
    exact ⟨rfl, rfl,
      fun _ => ⟨.pKiXgboost, rfl, rfl⟩,
      fun h => nomatch h⟩
  case pKd =>
    exact ⟨rfl, rfl,
      fun _ => ⟨.pKdXgboost, rfl, rfl⟩,
      fun h => nomatch h⟩

/-- C10 witness: for `pKdMeasurement` the xgboost lookup succeeds and hands
back the placeholder whose invocation raises `NotImplementedError`. -/
theorem c10_backend_lookup_total_witness :
    ∃ f, observation_model .pKd "xgboost" = .ok f ∧
      f.invokeRaisesNotImplemented = true :=
  (c10_backend_lookup_total .pKd).2.2.1 (by decide)

end KinoML
